import Mathlib

/-!
# Private-key extraction from a keyset handle (`pkg/crypto/tinkcrypto/unwrap_support.go`)

A shallow embedding of `extractPrivKey`, `noopAEAD`, `privKeyWriter` and `write`.

* Go pointers that the code dereferences are `Option` values; dereferencing `none`
  (and indexing an empty slice) is the explicit outcome `fault` (a Go run-time panic).
* The in-memory `bytes.Buffer` is threaded explicitly as its contents.
* Collaborators that live in other libraries (`proto.Unmarshal`, `hybrid.GetCurve`,
  `hybrid.GetECPrivateKey`, the enum `String` method, `keyset.Handle.Write`) are parameters.
-/

namespace Tinkcrypto

/-- Byte sequences (Go `[]byte`). -/
abbrev Bytes := List (Fin 256)

/-! ## Go error values -/

/-- Go `error` values, as observable through `Error()` and `Unwrap()`:
`errorString` is what `errors.New` and a verb-free `fmt.Errorf` build,
`wrapError` is what `fmt.Errorf` builds for a format with `%w`. -/
inductive GoError where
  | errorString (msg : String)
  | wrapError (msg : String) (err : GoError)
deriving DecidableEq, Repr

/-- The method `Error()`. -/
def GoError.Error : GoError → String
  | .errorString msg => msg
  | .wrapError msg _ => msg

/-- The method `Unwrap()` as used by `errors.Unwrap`: the wrapped cause, if any. -/
def GoError.Unwrap : GoError → Option GoError
  | .errorString _ => none
  | .wrapError _ err => some err

/-- The call `errors.New(text)`. -/
def errorsNew (text : String) : GoError := .errorString text

/-- The call `fmt.Errorf(format)` for a format without verbs. -/
def fmtErrorf (format : String) : GoError := .errorString format

/-- The call `fmt.Errorf(ctx + "%w", err)`: the message is `ctx` followed by the message
of `err`, and the result unwraps to `err`. -/
def fmtErrorfW (ctx : String) (err : GoError) : GoError :=
  .wrapError (ctx ++ err.Error) err

/-! ## Protobuf structures -/

/-- The message `tinkpb.KeyData`. -/
structure KeyData where
  TypeUrl : String
  Value : Bytes
  KeyMaterialType : Nat
deriving DecidableEq, Repr

/-- The message `tinkpb.Keyset_Key`; `KeyData` is a pointer field. -/
structure Keyset_Key where
  KeyData : Option KeyData
  Status : Nat
  KeyId : Nat
deriving DecidableEq, Repr

/-- The message `tinkpb.Keyset`: the entries are kept in order in `Key`. -/
structure Keyset where
  PrimaryKeyId : Nat
  Key : List Keyset_Key
deriving DecidableEq, Repr

/-- The message `tinkpb.KeysetInfo`, reduced to its primary key id. -/
structure KeysetInfo where
  PrimaryKeyId : Nat
deriving DecidableEq, Repr

/-- The message `tinkpb.EncryptedKeyset`. -/
structure EncryptedKeyset where
  EncryptedKeyset : Bytes
  KeysetInfo : Option KeysetInfo
deriving DecidableEq, Repr

/-- Modelled from the spec: the generated message `ecdhespb.EcdhesKwParams` is not among the
sources; the key-wrap parameters carry the curve identifier (an enum value). -/
structure EcdhesKwParams where
  CurveType : Int
deriving DecidableEq, Repr

/-- Modelled from the spec: the generated message `ecdhespb.EcdhesAeadParams` is not among the
sources; the parameters of the public-key descriptor hold the key-wrap parameters. -/
structure EcdhesAeadParams where
  KwParams : Option EcdhesKwParams
deriving DecidableEq, Repr

/-- Modelled from the spec: the generated message `ecdhespb.EcdhesAeadPublicKey` is not among
the sources; the public-key descriptor holds the parameters. -/
structure EcdhesAeadPublicKey where
  Params : Option EcdhesAeadParams
deriving DecidableEq, Repr

/-- Modelled from the spec: the generated message `ecdhespb.EcdhesAeadPrivateKey` is not among
the sources; the payload holds the public-key descriptor and the raw private scalar bytes. -/
structure EcdhesAeadPrivateKey where
  PublicKey : Option EcdhesAeadPublicKey
  KeyValue : Bytes
deriving DecidableEq, Repr

/-! ## Execution results -/

/-- Result of a call that returns one `error` and may change a state `σ`:
`fault` is a run-time panic, `done s err` a normal return in state `s`. -/
inductive Exec (σ : Type) where
  | fault
  | done (s : σ) (err : Option GoError)
deriving DecidableEq, Repr

/-! ## Collaborator interfaces -/

/-- The interface `io.Writer` over a state `σ`: `Write p` returns the new state, the number
of bytes written and an error. -/
structure IoWriter (σ : Type) where
  Write : Bytes → σ → σ × Nat × Option GoError

/-- The writer `*bytes.Buffer`: `Write` appends and returns `len(p), nil`. -/
def bytesBuffer : IoWriter Bytes where
  Write := fun p b => (b ++ p, p.length, none)

/-- The interface `tink.AEAD`. -/
structure AEAD where
  Encrypt : Bytes → Bytes → Bytes × Option GoError
  Decrypt : Bytes → Bytes → Bytes × Option GoError

/-- The interface `keyset.Writer` over a state `σ`; both methods take a pointer. -/
structure KeysetWriter (σ : Type) where
  Write : Option Keyset → σ → Exec σ
  WriteEncrypted : Option EncryptedKeyset → σ → Exec σ

/-- A `keyset.Handle`, seen through the only method the code calls: `Write(writer, aead)`
acts on the state of the writer and returns an error (or panics). -/
structure Handle where
  Write : KeysetWriter Bytes → AEAD → Bytes → Exec Bytes

/-- The remaining collaborators of `extractPrivKey`:
`proto.Unmarshal` into a `Keyset` and into an `EcdhesAeadPrivateKey` (`none` is an error),
the `String()` method of the curve enum, `hybrid.GetCurve` and `hybrid.GetECPrivateKey`. -/
structure Env (Curve Key : Type) where
  unmarshalKeyset : Bytes → Option Keyset
  unmarshalPrivateKey : Bytes → Option EcdhesAeadPrivateKey
  curveTypeString : Int → String
  GetCurve : String → Except GoError Curve
  GetECPrivateKey : Curve → Bytes → Key

/-! ## `noopAEAD` -/

/-- The type `noopAEAD struct{}`. -/
structure noopAEAD where
deriving DecidableEq, Repr

/-- The method `noopAEAD.Encrypt`: `return plaintext, nil`. -/
def noopAEAD.Encrypt (_n : noopAEAD) (plaintext _additionalData : Bytes) :
    Bytes × Option GoError :=
  (plaintext, none)

/-- The method `noopAEAD.Decrypt`: `return ciphertext, nil`. -/
def noopAEAD.Decrypt (_n : noopAEAD) (ciphertext _additionalData : Bytes) :
    Bytes × Option GoError :=
  (ciphertext, none)

/-- The value `noopAEAD` used as a `tink.AEAD`. -/
def noopAEAD.toAEAD (n : noopAEAD) : AEAD where
  Encrypt := n.Encrypt
  Decrypt := n.Decrypt

/-! ## `privKeyWriter` -/

/-- The function `write(w, ks)`: `_, e := w.Write(ks.EncryptedKeyset); return e`.
Reading the field of a nil `ks` panics. -/
def write {σ : Type} (w : IoWriter σ) (ks : Option EncryptedKeyset) (s : σ) : Exec σ :=
  match ks with
  | none => .fault
  | some ks =>
    match w.Write ks.EncryptedKeyset s with
    | (s', _, e) => .done s' e

/-- The type `privKeyWriter struct { w io.Writer }`. -/
structure privKeyWriter (σ : Type) where
  w : IoWriter σ

/-- The method `privKeyWriter.Write`: the argument and the writer are not touched. -/
def privKeyWriter.Write {σ : Type} (_p : privKeyWriter σ) (_ks : Option Keyset) (s : σ) :
    Exec σ :=
  .done s (some (fmtErrorf "privKeyWriter: write function not supported"))

/-- The method `privKeyWriter.WriteEncrypted`: `return write(p.w, ks)`. -/
def privKeyWriter.WriteEncrypted {σ : Type} (p : privKeyWriter σ)
    (ks : Option EncryptedKeyset) (s : σ) : Exec σ :=
  write p.w ks s

/-- The value `*privKeyWriter` used as a `keyset.Writer`. -/
def privKeyWriter.toWriter {σ : Type} (p : privKeyWriter σ) : KeysetWriter σ where
  Write := p.Write
  WriteEncrypted := p.WriteEncrypted

/-! ## `extractPrivKey` -/

/-- Calls to collaborators, recorded in the order in which `extractPrivKey` makes them. -/
inductive Call where
  | handleWrite
  | unmarshalKeyset (b : Bytes)
  | unmarshalPrivateKey (b : Bytes)
  | getCurve (name : String)
  | getECPrivateKey (b : Bytes)
deriving DecidableEq, Repr

/-- What a call of `extractPrivKey` does: `fault` is a run-time panic,
`ret key err` is the returned pair `(*hybrid.ECPrivateKey, error)`. -/
inductive Outcome (Key : Type) where
  | fault
  | ret (key : Option Key) (err : Option GoError)
deriving DecidableEq, Repr

/-- One execution of `extractPrivKey`: the final contents of its local capture buffer,
the collaborator calls it made, and its outcome. -/
structure Run (Key : Type) where
  buf : Bytes
  calls : List Call
  out : Outcome Key
deriving DecidableEq, Repr

/-- The literal assigned to `ecdhesAESPrivateKeyTypeURL` in `extractPrivKey`. -/
def ecdhesAESPrivateKeyTypeURL : String :=
  "type.hyperledger.org/hyperledger.aries.crypto.tink.EcdhesAesAeadPrivateKey"

/-- The function `extractPrivKey(kh)`, statement by statement. -/
def extractPrivKey {Curve Key : Type} (env : Env Curve Key) (kh : Option Handle) : Run Key :=
  -- buf := new(bytes.Buffer); w := &privKeyWriter{w: buf}; nAEAD := &noopAEAD{}
  let buf : Bytes := []
  let w : privKeyWriter Bytes := { w := bytesBuffer }
  let nAEAD : noopAEAD := {}
  match kh with
  | none =>
    -- if kh == nil
    { buf := buf, calls := [], out := .ret none (some (fmtErrorf "extractPrivKey: kh is nil")) }
  | some kh =>
    -- err := kh.Write(w, nAEAD)
    match kh.Write w.toWriter nAEAD.toAEAD buf with
    | .fault => { buf := buf, calls := [.handleWrite], out := .fault }
    | .done buf (some err) =>
      { buf := buf, calls := [.handleWrite],
        out := .ret none
          (some (fmtErrorfW "extractPrivKey: retrieving private key failed: " err)) }
    | .done buf none =>
      -- err = proto.Unmarshal(buf.Bytes(), ks)
      match env.unmarshalKeyset buf with
      | none =>
        { buf := buf, calls := [.handleWrite, .unmarshalKeyset buf],
          out := .ret none (some (errorsNew "extractPrivKey: invalid private key")) }
      | some ks =>
        -- primaryKey := ks.Key[0]
        match ks.Key with
        | [] => { buf := buf, calls := [.handleWrite, .unmarshalKeyset buf], out := .fault }
        | primaryKey :: _ =>
          -- primaryKey.KeyData.TypeUrl
          match primaryKey.KeyData with
          | none => { buf := buf, calls := [.handleWrite, .unmarshalKeyset buf], out := .fault }
          | some keyData =>
            if keyData.TypeUrl ≠ ecdhesAESPrivateKeyTypeURL then
              { buf := buf, calls := [.handleWrite, .unmarshalKeyset buf],
                out := .ret none
                  (some (errorsNew "extractPrivKey: can't extract unsupported private key")) }
            else
              -- err = proto.Unmarshal(primaryKey.KeyData.Value, pbKey)
              match env.unmarshalPrivateKey keyData.Value with
              | none =>
                { buf := buf,
                  calls := [.handleWrite, .unmarshalKeyset buf,
                    .unmarshalPrivateKey keyData.Value],
                  out := .ret none (some (errorsNew "extractPrivKey: invalid key in keyset")) }
              | some pbKey =>
                -- pbKey.PublicKey.Params.KwParams.CurveType.String()
                match pbKey.PublicKey with
                | none =>
                  { buf := buf,
                    calls := [.handleWrite, .unmarshalKeyset buf,
                      .unmarshalPrivateKey keyData.Value],
                    out := .fault }
                | some publicKey =>
                  match publicKey.Params with
                  | none =>
                    { buf := buf,
                      calls := [.handleWrite, .unmarshalKeyset buf,
                        .unmarshalPrivateKey keyData.Value],
                      out := .fault }
                  | some params =>
                    match params.KwParams with
                    | none =>
                      { buf := buf,
                        calls := [.handleWrite, .unmarshalKeyset buf,
                          .unmarshalPrivateKey keyData.Value],
                        out := .fault }
                    | some kwParams =>
                      -- c, err := hybrid.GetCurve(...)
                      match env.GetCurve (env.curveTypeString kwParams.CurveType) with
                      | .error err =>
                        { buf := buf,
                          calls := [.handleWrite, .unmarshalKeyset buf,
                            .unmarshalPrivateKey keyData.Value,
                            .getCurve (env.curveTypeString kwParams.CurveType)],
                          out := .ret none
                            (some (fmtErrorfW "extractPrivKey: invalid key: " err)) }
                      | .ok c =>
                        -- return hybrid.GetECPrivateKey(c, pbKey.KeyValue), nil
                        { buf := buf,
                          calls := [.handleWrite, .unmarshalKeyset buf,
                            .unmarshalPrivateKey keyData.Value,
                            .getCurve (env.curveTypeString kwParams.CurveType),
                            .getECPrivateKey pbKey.KeyValue],
                          out := .ret (some (env.GetECPrivateKey c pbKey.KeyValue)) none }

/-! ## Sample collaborators

Concrete collaborators on which the definitions above can be evaluated. -/

/-- A handle in the manner of `keyset.Handle.Write` for a keyset whose serialization is `s`:
`s` is encrypted with the given AEAD (empty associated data) and the result is handed to
`WriteEncrypted` inside an `EncryptedKeyset`. -/
def serializingHandle (s : Bytes) (info : Option KeysetInfo) : Handle where
  Write := fun w a buf =>
    match a.Encrypt s [] with
    | (_, some _) => .done buf (some (errorsNew "keyset.Handle: encrypted failed"))
    | (ct, none) => w.WriteEncrypted (some { EncryptedKeyset := ct, KeysetInfo := info }) buf

/-- A handle whose `Write` returns the error `e` without touching the writer. -/
def refusingHandle (e : GoError) : Handle where
  Write := fun _ _ buf => .done buf (some e)

/-- A private scalar. -/
def sampleKeyValue : Bytes := [7, 1, 255]

/-- A payload with all nested messages present and the given curve identifier. -/
def samplePrivateKey (curve : Int) : EcdhesAeadPrivateKey :=
  { PublicKey := some { Params := some { KwParams := some { CurveType := curve } } },
    KeyValue := sampleKeyValue }

/-- A keyset entry with the given type URL and payload bytes. -/
def sampleEntry (url : String) (value : Bytes) : Keyset_Key :=
  { KeyData := some { TypeUrl := url, Value := value, KeyMaterialType := 2 },
    Status := 1, KeyId := 1 }

/-- A small codec and curve registry. Keyset bytes: `[]` is the empty keyset, `[1]` .. `[4]`
are the keysets listed below, anything else does not decode. Payload bytes: `[10]` and `[11]`
decode, anything else does not. The registry knows the curve `NIST_P256` only. -/
def sampleEnv : Env String (String × Bytes) where
  unmarshalKeyset := fun b =>
    if b = [] then some { PrimaryKeyId := 0, Key := [] }
    else if b = [1] then
      some { PrimaryKeyId := 1, Key := [sampleEntry ecdhesAESPrivateKeyTypeURL [10]] }
    else if b = [2] then
      some { PrimaryKeyId := 1,
             Key := [sampleEntry "type.googleapis.com/google.crypto.tink.AesGcmKey" [10],
                     sampleEntry ecdhesAESPrivateKeyTypeURL [10]] }
    else if b = [3] then
      some { PrimaryKeyId := 1, Key := [sampleEntry ecdhesAESPrivateKeyTypeURL [99]] }
    else if b = [4] then
      some { PrimaryKeyId := 1, Key := [sampleEntry ecdhesAESPrivateKeyTypeURL [11]] }
    else none
  unmarshalPrivateKey := fun b =>
    if b = [10] then some (samplePrivateKey 2)
    else if b = [11] then some (samplePrivateKey 0)
    else none
  curveTypeString := fun n =>
    if n = 2 then "NIST_P256" else if n = 0 then "UNKNOWN_CURVE" else "OTHER"
  GetCurve := fun name =>
    if name = "NIST_P256" then .ok "P-256" else .error (errorsNew "unsupported curve")
  GetECPrivateKey := fun c b => (c, b)

/-- The serialization of a handle as the keyset library does it (`keyset.Handle.Write` is not
among the sources): the keyset is serialized to the bytes `marshal ks`, these are encrypted
with the given AEAD under the associated data `ad`, and the ciphertext is handed to
`WriteEncrypted` as the field `EncryptedKeyset` of an `EncryptedKeyset`. An error of the
AEAD is returned without a write. -/
def handleSerialization (marshal : Keyset → Bytes) (ks : Keyset) (ad : Bytes)
    (info : Option KeysetInfo) : Handle where
  Write := fun w a buf =>
    match a.Encrypt (marshal ks) ad with
    | (_, some _) => .done buf (some (errorsNew "keyset.Handle: encrypted failed"))
    | (ct, none) => w.WriteEncrypted (some { EncryptedKeyset := ct, KeysetInfo := info }) buf

/-- The condition for a normal return of `extractPrivKey` on a non-nil handle, spelled out
case by case: the serialization returns an error, or the captured bytes do not decode as a
keyset, or the decoded keyset has a first entry with key data present and either its type
URL is not the expected one, or its payload does not decode, or the decoded payload has its
public-key descriptor, the params of that descriptor and the key-wrap params of those
params all present. -/
def returnCondition {Curve Key : Type} (env : Env Curve Key) (kh : Handle) : Prop :=
  (∃ buf e,
      kh.Write (privKeyWriter.toWriter { w := bytesBuffer }) (noopAEAD.toAEAD {}) []
        = .done buf (some e))
  ∨ (∃ buf,
      kh.Write (privKeyWriter.toWriter { w := bytesBuffer }) (noopAEAD.toAEAD {}) []
        = .done buf none
      ∧ env.unmarshalKeyset buf = none)
  ∨ (∃ buf ks entry rest keyData,
      kh.Write (privKeyWriter.toWriter { w := bytesBuffer }) (noopAEAD.toAEAD {}) []
        = .done buf none
      ∧ env.unmarshalKeyset buf = some ks
      ∧ ks.Key = entry :: rest
      ∧ entry.KeyData = some keyData
      ∧ (keyData.TypeUrl ≠ ecdhesAESPrivateKeyTypeURL
        ∨ env.unmarshalPrivateKey keyData.Value = none
        ∨ ∃ pbKey publicKey params kwParams,
            env.unmarshalPrivateKey keyData.Value = some pbKey
            ∧ pbKey.PublicKey = some publicKey
            ∧ publicKey.Params = some params
            ∧ params.KwParams = some kwParams))

/-- The sample codec with a payload decoder that rejects every payload. -/
def sampleEnvNoPayload : Env String (String × Bytes) :=
  { sampleEnv with unmarshalPrivateKey := fun _ => none }

/-- The runs of `extractPrivKey` on a non-nil handle that dereference an absent value, case
by case: the serialization succeeded and the captured bytes decoded to a keyset that has no
entry, or whose first entry has no key data, or whose first entry has the expected type URL
and a payload that decodes to a private key without public-key descriptor, or whose
descriptor has no params, or whose params have no key-wrap params. -/
def faultCondition {Curve Key : Type} (env : Env Curve Key) (kh : Handle) : Prop :=
  ∃ buf ks,
    kh.Write (privKeyWriter.toWriter { w := bytesBuffer }) (noopAEAD.toAEAD {}) []
      = .done buf none
    ∧ env.unmarshalKeyset buf = some ks
    ∧ (ks.Key = []
      ∨ ∃ entry rest, ks.Key = entry :: rest
        ∧ (entry.KeyData = none
          ∨ ∃ keyData pbKey,
              entry.KeyData = some keyData
              ∧ keyData.TypeUrl = ecdhesAESPrivateKeyTypeURL
              ∧ env.unmarshalPrivateKey keyData.Value = some pbKey
              ∧ (pbKey.PublicKey = none
                ∨ ∃ publicKey, pbKey.PublicKey = some publicKey
                  ∧ (publicKey.Params = none
                    ∨ ∃ params, publicKey.Params = some params
                      ∧ params.KwParams = none))))

/-- The sample codec with one more keyset: the bytes `[6]` decode to a keyset whose first
entry has no key data and whose second entry is a valid entry of the expected type. -/
def sampleEnvNoKeyData : Env String (String × Bytes) :=
  { sampleEnv with
    unmarshalKeyset := fun b =>
      if b = [6] then
        some { PrimaryKeyId := 1,
               Key := [{ KeyData := none, Status := 1, KeyId := 1 },
                       sampleEntry ecdhesAESPrivateKeyTypeURL [10]] }
      else sampleEnv.unmarshalKeyset b }

/-! ## Successive calls

The state that survives a call of `extractPrivKey` is the heap: the `bytes.Buffer` objects
allocated so far. A call allocates its buffer with `new(bytes.Buffer)`, runs on it, and
leaves it behind. -/

/-- The `bytes.Buffer` objects on the heap: the contents of each, by address. -/
structure Heap where
  buffers : List Bytes
deriving DecidableEq, Repr

/-- The expression `new(bytes.Buffer)`: the address of a new, empty buffer and the heap that
holds it. -/
def Heap.newBuffer (heap : Heap) : Nat × Heap :=
  (heap.buffers.length, { buffers := heap.buffers ++ [[]] })

/-- The contents of the buffer at `addr` (`buf.Bytes()`). -/
def Heap.bytesAt (heap : Heap) (addr : Nat) : Bytes :=
  (heap.buffers.get? addr).getD []

/-- The heap after the buffer at `addr` has come to hold `b`. -/
def Heap.store (heap : Heap) (addr : Nat) (b : Bytes) : Heap :=
  { buffers := heap.buffers.set addr b }

/-- The function `extractPrivKey(kh)`, statement by statement, with the contents `buf0` of
the buffer that `new(bytes.Buffer)` returned made explicit. -/
def extractPrivKeyFrom {Curve Key : Type} (env : Env Curve Key) (kh : Option Handle)
    (buf0 : Bytes) : Run Key :=
  -- buf := new(bytes.Buffer); w := &privKeyWriter{w: buf}; nAEAD := &noopAEAD{}
  let buf : Bytes := buf0
  let w : privKeyWriter Bytes := { w := bytesBuffer }
  let nAEAD : noopAEAD := {}
  match kh with
  | none =>
    -- if kh == nil
    { buf := buf, calls := [], out := .ret none (some (fmtErrorf "extractPrivKey: kh is nil")) }
  | some kh =>
    -- err := kh.Write(w, nAEAD)
    match kh.Write w.toWriter nAEAD.toAEAD buf with
    | .fault => { buf := buf, calls := [.handleWrite], out := .fault }
    | .done buf (some err) =>
      { buf := buf, calls := [.handleWrite],
        out := .ret none
          (some (fmtErrorfW "extractPrivKey: retrieving private key failed: " err)) }
    | .done buf none =>
      -- err = proto.Unmarshal(buf.Bytes(), ks)
      match env.unmarshalKeyset buf with
      | none =>
        { buf := buf, calls := [.handleWrite, .unmarshalKeyset buf],
          out := .ret none (some (errorsNew "extractPrivKey: invalid private key")) }
      | some ks =>
        -- primaryKey := ks.Key[0]
        match ks.Key with
        | [] => { buf := buf, calls := [.handleWrite, .unmarshalKeyset buf], out := .fault }
        | primaryKey :: _ =>
          -- primaryKey.KeyData.TypeUrl
          match primaryKey.KeyData with
          | none => { buf := buf, calls := [.handleWrite, .unmarshalKeyset buf], out := .fault }
          | some keyData =>
            if keyData.TypeUrl ≠ ecdhesAESPrivateKeyTypeURL then
              { buf := buf, calls := [.handleWrite, .unmarshalKeyset buf],
                out := .ret none
                  (some (errorsNew "extractPrivKey: can't extract unsupported private key")) }
            else
              -- err = proto.Unmarshal(primaryKey.KeyData.Value, pbKey)
              match env.unmarshalPrivateKey keyData.Value with
              | none =>
                { buf := buf,
                  calls := [.handleWrite, .unmarshalKeyset buf,
                    .unmarshalPrivateKey keyData.Value],
                  out := .ret none (some (errorsNew "extractPrivKey: invalid key in keyset")) }
              | some pbKey =>
                -- pbKey.PublicKey.Params.KwParams.CurveType.String()
                match pbKey.PublicKey with
                | none =>
                  { buf := buf,
                    calls := [.handleWrite, .unmarshalKeyset buf,
                      .unmarshalPrivateKey keyData.Value],
                    out := .fault }
                | some publicKey =>
                  match publicKey.Params with
                  | none =>
                    { buf := buf,
                      calls := [.handleWrite, .unmarshalKeyset buf,
                        .unmarshalPrivateKey keyData.Value],
                      out := .fault }
                  | some params =>
                    match params.KwParams with
                    | none =>
                      { buf := buf,
                        calls := [.handleWrite, .unmarshalKeyset buf,
                          .unmarshalPrivateKey keyData.Value],
                        out := .fault }
                    | some kwParams =>
                      -- c, err := hybrid.GetCurve(...)
                      match env.GetCurve (env.curveTypeString kwParams.CurveType) with
                      | .error err =>
                        { buf := buf,
                          calls := [.handleWrite, .unmarshalKeyset buf,
                            .unmarshalPrivateKey keyData.Value,
                            .getCurve (env.curveTypeString kwParams.CurveType)],
                          out := .ret none
                            (some (fmtErrorfW "extractPrivKey: invalid key: " err)) }
                      | .ok c =>
                        -- return hybrid.GetECPrivateKey(c, pbKey.KeyValue), nil
                        { buf := buf,
                          calls := [.handleWrite, .unmarshalKeyset buf,
                            .unmarshalPrivateKey keyData.Value,
                            .getCurve (env.curveTypeString kwParams.CurveType),
                            .getECPrivateKey pbKey.KeyValue],
                          out := .ret (some (env.GetECPrivateKey c pbKey.KeyValue)) none }

/-- One call `extractPrivKey(kh)` on a heap: the buffer is allocated on the heap, the body
runs on the contents of that buffer, and the buffer stays on the heap with what the run
left in it. Returns the run and the heap after the call. -/
def extractPrivKeyCall {Curve Key : Type} (env : Env Curve Key) (kh : Option Handle)
    (heap : Heap) : Run Key × Heap :=
  match heap.newBuffer with
  | (addr, heap1) =>
    match extractPrivKeyFrom env kh (heap1.bytesAt addr) with
    | run => (run, heap1.store addr run.buf)

/-! ## Theorems -/

/-- The serialization step of `extractPrivKey` on the sample handle: with `noopAEAD` and a
`privKeyWriter` over an empty buffer, the handle leaves its serialized bytes in the buffer. -/
theorem serializingHandle_capture (s : Bytes) (info : Option KeysetInfo) :
    (serializingHandle s info).Write (privKeyWriter.toWriter { w := bytesBuffer })
      (noopAEAD.toAEAD {}) [] = .done s none := by
  simp [serializingHandle, privKeyWriter.toWriter, privKeyWriter.WriteEncrypted, write,
    bytesBuffer, noopAEAD.toAEAD, noopAEAD.Encrypt]

/-- An empty entry list makes `ks.Key[0]` panic: once the envelope has decoded to a keyset
without entries, `extractPrivKey` faults, whatever the other collaborators do. -/
theorem extractPrivKey_fault_of_no_entry {Curve Key : Type} (env : Env Curve Key)
    (kh : Handle) (buf : Bytes) (ks : Keyset)
    (hwrite : kh.Write (privKeyWriter.toWriter { w := bytesBuffer }) (noopAEAD.toAEAD {}) []
      = .done buf none)
    (hks : env.unmarshalKeyset buf = some ks)
    (hnone : ks.Key = []) :
    extractPrivKey env (some kh) =
      { buf := buf, calls := [.handleWrite, .unmarshalKeyset buf], out := .fault } := by
  simp [extractPrivKey, hwrite, hks, hnone]

/-- C1: a non-nil handle whose serialization (driven with `noopAEAD` and `privKeyWriter`)
succeeds and leaves bytes that decode to a keyset with exactly one entry, of the ECDH-ES AEAD
private-key type URL, whose payload decodes to a private key whose embedded curve identifier
the registry resolves to `c`: `extractPrivKey` returns a nil error and the key that
`GetECPrivateKey` builds from `c` and the untouched `KeyValue` bytes of the payload. -/
theorem extractPrivKey_single_entry_ok {Curve Key : Type} (env : Env Curve Key) (kh : Handle)
    (buf : Bytes) (ks : Keyset) (entry : Keyset_Key) (keyData : KeyData)
    (pbKey : EcdhesAeadPrivateKey) (publicKey : EcdhesAeadPublicKey)
    (params : EcdhesAeadParams) (kwParams : EcdhesKwParams) (c : Curve)
    (hwrite : kh.Write (privKeyWriter.toWriter { w := bytesBuffer }) (noopAEAD.toAEAD {}) []
      = .done buf none)
    (hks : env.unmarshalKeyset buf = some ks)
    (hone : ks.Key = [entry])
    (hkd : entry.KeyData = some keyData)
    (hurl : keyData.TypeUrl
      = "type.hyperledger.org/hyperledger.aries.crypto.tink.EcdhesAesAeadPrivateKey")
    (hpb : env.unmarshalPrivateKey keyData.Value = some pbKey)
    (hpub : pbKey.PublicKey = some publicKey)
    (hparams : publicKey.Params = some params)
    (hkw : params.KwParams = some kwParams)
    (hcurve : env.GetCurve (env.curveTypeString kwParams.CurveType) = .ok c) :
    extractPrivKey env (some kh) =
      { buf := buf,
        calls := [.handleWrite, .unmarshalKeyset buf, .unmarshalPrivateKey keyData.Value,
          .getCurve (env.curveTypeString kwParams.CurveType),
          .getECPrivateKey pbKey.KeyValue],
        out := .ret (some (env.GetECPrivateKey c pbKey.KeyValue)) none } := by
  simp [extractPrivKey, hwrite, hks, hone, hkd, hurl, ecdhesAESPrivateKeyTypeURL, hpb, hpub,
    hparams, hkw, hcurve]

/-- Witness for C1: the sample handle over the one-entry keyset `[1]`. -/
theorem extractPrivKey_single_entry_ok_witness :
    extractPrivKey sampleEnv (some (serializingHandle [1] none)) =
      { buf := [1],
        calls := [.handleWrite, .unmarshalKeyset [1], .unmarshalPrivateKey [10],
          .getCurve "NIST_P256", .getECPrivateKey [7, 1, 255]],
        out := .ret (some ("P-256", [7, 1, 255])) none } :=
  extractPrivKey_single_entry_ok sampleEnv (serializingHandle [1] none) [1]
    { PrimaryKeyId := 1, Key := [sampleEntry ecdhesAESPrivateKeyTypeURL [10]] }
    (sampleEntry ecdhesAESPrivateKeyTypeURL [10])
    { TypeUrl := ecdhesAESPrivateKeyTypeURL, Value := [10], KeyMaterialType := 2 }
    (samplePrivateKey 2) { Params := some { KwParams := some { CurveType := 2 } } }
    { KwParams := some { CurveType := 2 } } { CurveType := 2 } "P-256"
    rfl rfl rfl rfl rfl rfl rfl rfl rfl rfl

/-- C2: `extractPrivKey(nil)` returns a nil key and the error `extractPrivKey: kh is nil`;
it calls no collaborator (in particular not the serialization of a handle) and its capture
buffer is still empty. -/
theorem extractPrivKey_nil {Curve Key : Type} (env : Env Curve Key) :
    extractPrivKey env none =
      { buf := [], calls := [],
        out := .ret none (some (.errorString "extractPrivKey: kh is nil")) }
    ∧ (GoError.errorString "extractPrivKey: kh is nil").Error = "extractPrivKey: kh is nil" :=
  ⟨rfl, rfl⟩

/-- When the captured keyset has a first entry with key data whose type URL is not the
ECDH-ES AEAD private-key type URL, `extractPrivKey` returns a nil key and the
unsupported-key-type error, whatever the payload of that entry and whatever the later
entries `rest` are; no payload is decoded. -/
theorem extractPrivKey_first_entry_type_mismatch {Curve Key : Type} (env : Env Curve Key)
    (kh : Handle) (buf : Bytes) (ks : Keyset) (entry : Keyset_Key) (rest : List Keyset_Key)
    (keyData : KeyData)
    (hwrite : kh.Write (privKeyWriter.toWriter { w := bytesBuffer }) (noopAEAD.toAEAD {}) []
      = .done buf none)
    (hks : env.unmarshalKeyset buf = some ks)
    (hkey : ks.Key = entry :: rest)
    (hkd : entry.KeyData = some keyData)
    (hurl : keyData.TypeUrl
      ≠ "type.hyperledger.org/hyperledger.aries.crypto.tink.EcdhesAesAeadPrivateKey") :
    extractPrivKey env (some kh) =
      { buf := buf, calls := [.handleWrite, .unmarshalKeyset buf],
        out := .ret none
          (some (.errorString "extractPrivKey: can't extract unsupported private key")) } := by
  simp [extractPrivKey, hwrite, hks, hkey, hkd, hurl, ecdhesAESPrivateKeyTypeURL, errorsNew]

/-- The type mismatch on sample data: in the keyset `[2]` the second entry has the expected
type URL and a valid payload, the first entry has another type URL. -/
theorem extractPrivKey_first_entry_type_mismatch_witness :
    extractPrivKey sampleEnv (some (serializingHandle [2] none)) =
      { buf := [2], calls := [.handleWrite, .unmarshalKeyset [2]],
        out := .ret none
          (some (.errorString "extractPrivKey: can't extract unsupported private key")) } :=
  extractPrivKey_first_entry_type_mismatch sampleEnv (serializingHandle [2] none) [2]
    { PrimaryKeyId := 1,
      Key := [sampleEntry "type.googleapis.com/google.crypto.tink.AesGcmKey" [10],
              sampleEntry ecdhesAESPrivateKeyTypeURL [10]] }
    (sampleEntry "type.googleapis.com/google.crypto.tink.AesGcmKey" [10])
    [sampleEntry ecdhesAESPrivateKeyTypeURL [10]]
    { TypeUrl := "type.googleapis.com/google.crypto.tink.AesGcmKey", Value := [10],
      KeyMaterialType := 2 }
    rfl rfl rfl rfl (by decide)

/-- C4: the claim asks for a defined error on an empty entry list. On the handle that
serializes to no bytes, which decode to the keyset without entries, `extractPrivKey` returns
neither a key nor an error: taking `ks.Key[0]` panics. -/
theorem extractPrivKey_empty_entry_list_faults :
    extractPrivKey sampleEnv (some (serializingHandle [] none)) =
      { buf := [], calls := [.handleWrite, .unmarshalKeyset []], out := .fault } :=
  extractPrivKey_fault_of_no_entry sampleEnv (serializingHandle [] none) []
    { PrimaryKeyId := 0, Key := [] } rfl rfl rfl

/-- C5: when the serialization of a non-nil handle succeeds and the captured bytes do not
decode as a keyset, `extractPrivKey` returns (it does not fault) a nil key and the error
`extractPrivKey: invalid private key`. -/
theorem extractPrivKey_envelope_undecodable {Curve Key : Type} (env : Env Curve Key)
    (kh : Handle) (buf : Bytes)
    (hwrite : kh.Write (privKeyWriter.toWriter { w := bytesBuffer }) (noopAEAD.toAEAD {}) []
      = .done buf none)
    (hks : env.unmarshalKeyset buf = none) :
    extractPrivKey env (some kh) =
      { buf := buf, calls := [.handleWrite, .unmarshalKeyset buf],
        out := .ret none (some (.errorString "extractPrivKey: invalid private key")) } := by
  simp [extractPrivKey, hwrite, hks, errorsNew]

/-- Witness for C5: the bytes `[5]` are no keyset for the sample codec. -/
theorem extractPrivKey_envelope_undecodable_witness :
    extractPrivKey sampleEnv (some (serializingHandle [5] none)) =
      { buf := [5], calls := [.handleWrite, .unmarshalKeyset [5]],
        out := .ret none (some (.errorString "extractPrivKey: invalid private key")) } :=
  extractPrivKey_envelope_undecodable sampleEnv (serializingHandle [5] none) [5] rfl rfl

/-- C6: when the first entry of the captured keyset has the expected type URL and its
payload bytes do not decode as an ECDH-ES AEAD private key, `extractPrivKey` returns a nil
key and the error `extractPrivKey: invalid key in keyset`. -/
theorem extractPrivKey_payload_undecodable {Curve Key : Type} (env : Env Curve Key)
    (kh : Handle) (buf : Bytes) (ks : Keyset) (entry : Keyset_Key) (rest : List Keyset_Key)
    (keyData : KeyData)
    (hwrite : kh.Write (privKeyWriter.toWriter { w := bytesBuffer }) (noopAEAD.toAEAD {}) []
      = .done buf none)
    (hks : env.unmarshalKeyset buf = some ks)
    (hkey : ks.Key = entry :: rest)
    (hkd : entry.KeyData = some keyData)
    (hurl : keyData.TypeUrl
      = "type.hyperledger.org/hyperledger.aries.crypto.tink.EcdhesAesAeadPrivateKey")
    (hpb : env.unmarshalPrivateKey keyData.Value = none) :
    extractPrivKey env (some kh) =
      { buf := buf,
        calls := [.handleWrite, .unmarshalKeyset buf, .unmarshalPrivateKey keyData.Value],
        out := .ret none (some (.errorString "extractPrivKey: invalid key in keyset")) } := by
  simp [extractPrivKey, hwrite, hks, hkey, hkd, hurl, ecdhesAESPrivateKeyTypeURL, hpb,
    errorsNew]

/-- Witness for C6: the payload `[99]` of the keyset `[3]` does not decode. -/
theorem extractPrivKey_payload_undecodable_witness :
    extractPrivKey sampleEnv (some (serializingHandle [3] none)) =
      { buf := [3], calls := [.handleWrite, .unmarshalKeyset [3], .unmarshalPrivateKey [99]],
        out := .ret none (some (.errorString "extractPrivKey: invalid key in keyset")) } :=
  extractPrivKey_payload_undecodable sampleEnv (serializingHandle [3] none) [3]
    { PrimaryKeyId := 1, Key := [sampleEntry ecdhesAESPrivateKeyTypeURL [99]] }
    (sampleEntry ecdhesAESPrivateKeyTypeURL [99]) []
    { TypeUrl := ecdhesAESPrivateKeyTypeURL, Value := [99], KeyMaterialType := 2 }
    rfl rfl rfl rfl rfl rfl

/-- C7: when the first entry of the captured keyset has the expected type URL and a payload
that decodes, with public-key descriptor, params and key-wrap params present, and the curve
registry rejects the curve identifier with the error `e`, `extractPrivKey` returns a nil key
and an error whose message is `extractPrivKey: invalid key: ` followed by the message of `e`
and which unwraps to `e`. -/
theorem extractPrivKey_curve_rejected {Curve Key : Type} (env : Env Curve Key)
    (kh : Handle) (buf : Bytes) (ks : Keyset) (entry : Keyset_Key) (rest : List Keyset_Key)
    (keyData : KeyData) (pbKey : EcdhesAeadPrivateKey) (publicKey : EcdhesAeadPublicKey)
    (params : EcdhesAeadParams) (kwParams : EcdhesKwParams) (e : GoError)
    (hwrite : kh.Write (privKeyWriter.toWriter { w := bytesBuffer }) (noopAEAD.toAEAD {}) []
      = .done buf none)
    (hks : env.unmarshalKeyset buf = some ks)
    (hkey : ks.Key = entry :: rest)
    (hkd : entry.KeyData = some keyData)
    (hurl : keyData.TypeUrl
      = "type.hyperledger.org/hyperledger.aries.crypto.tink.EcdhesAesAeadPrivateKey")
    (hpb : env.unmarshalPrivateKey keyData.Value = some pbKey)
    (hpub : pbKey.PublicKey = some publicKey)
    (hparams : publicKey.Params = some params)
    (hkw : params.KwParams = some kwParams)
    (hcurve : env.GetCurve (env.curveTypeString kwParams.CurveType) = .error e) :
    ∃ err : GoError,
      (extractPrivKey env (some kh)).out = .ret none (some err)
      ∧ err.Error = "extractPrivKey: invalid key: " ++ e.Error
      ∧ err.Unwrap = some e := by
  refine ⟨fmtErrorfW "extractPrivKey: invalid key: " e, ?_, rfl, rfl⟩
  simp [extractPrivKey, hwrite, hks, hkey, hkd, hurl, ecdhesAESPrivateKeyTypeURL, hpb, hpub,
    hparams, hkw, hcurve]

/-- Witness for C7: the payload `[11]` of the keyset `[4]` names a curve that the sample
registry rejects with `unsupported curve`. -/
theorem extractPrivKey_curve_rejected_witness :
    ∃ err : GoError,
      (extractPrivKey sampleEnv (some (serializingHandle [4] none))).out
        = .ret none (some err)
      ∧ err.Error = "extractPrivKey: invalid key: "
          ++ (GoError.errorString "unsupported curve").Error
      ∧ err.Unwrap = some (GoError.errorString "unsupported curve") :=
  extractPrivKey_curve_rejected sampleEnv (serializingHandle [4] none) [4]
    { PrimaryKeyId := 1, Key := [sampleEntry ecdhesAESPrivateKeyTypeURL [11]] }
    (sampleEntry ecdhesAESPrivateKeyTypeURL [11]) []
    { TypeUrl := ecdhesAESPrivateKeyTypeURL, Value := [11], KeyMaterialType := 2 }
    (samplePrivateKey 0) { Params := some { KwParams := some { CurveType := 0 } } }
    { KwParams := some { CurveType := 0 } } { CurveType := 0 }
    (.errorString "unsupported curve")
    rfl rfl rfl rfl rfl rfl rfl rfl rfl rfl

/-- C8: when the serialization of a non-nil handle returns the error `e`, `extractPrivKey`
returns a nil key and an error whose message is
`extractPrivKey: retrieving private key failed: ` followed by the message of `e` and which
unwraps to `e`; the only collaborator call is the serialization, so the capture buffer is
not decoded. -/
theorem extractPrivKey_serialization_failed {Curve Key : Type} (env : Env Curve Key)
    (kh : Handle) (buf : Bytes) (e : GoError)
    (hwrite : kh.Write (privKeyWriter.toWriter { w := bytesBuffer }) (noopAEAD.toAEAD {}) []
      = .done buf (some e)) :
    ∃ err : GoError,
      (extractPrivKey env (some kh)).out = .ret none (some err)
      ∧ err.Error = "extractPrivKey: retrieving private key failed: " ++ e.Error
      ∧ err.Unwrap = some e
      ∧ (extractPrivKey env (some kh)).calls = [.handleWrite] := by
  refine ⟨fmtErrorfW "extractPrivKey: retrieving private key failed: " e, ?_, rfl, rfl, ?_⟩
  · simp [extractPrivKey, hwrite]
  · simp [extractPrivKey, hwrite]

/-- Witness for C8: a handle that refuses to serialize with the error `boom`. -/
theorem extractPrivKey_serialization_failed_witness :
    ∃ err : GoError,
      (extractPrivKey sampleEnv (some (refusingHandle (.errorString "boom")))).out
        = .ret none (some err)
      ∧ err.Error = "extractPrivKey: retrieving private key failed: "
          ++ (GoError.errorString "boom").Error
      ∧ err.Unwrap = some (GoError.errorString "boom")
      ∧ (extractPrivKey sampleEnv (some (refusingHandle (.errorString "boom")))).calls
        = [.handleWrite] :=
  extractPrivKey_serialization_failed sampleEnv (refusingHandle (.errorString "boom")) []
    (.errorString "boom") rfl

/-- C9: `noopAEAD` is the identity cipher: `Encrypt` and `Decrypt` return their first
argument and no error, decrypting an encryption gives the plaintext back for any two
associated data, and neither result depends on the associated data. -/
theorem noopAEAD_identity (n : noopAEAD) (p ad ad' : Bytes) :
    n.Encrypt p ad = (p, none)
    ∧ n.Decrypt p ad = (p, none)
    ∧ n.Decrypt (n.Encrypt p ad).1 ad' = (p, none)
    ∧ n.Encrypt p ad = n.Encrypt p ad'
    ∧ n.Decrypt p ad = n.Decrypt p ad' :=
  ⟨rfl, rfl, rfl, rfl, rfl⟩

/-- C10: over an in-memory buffer with contents `b`, `WriteEncrypted(ks)` leaves the buffer
equal to `b` followed by `ks.EncryptedKeyset` and returns a nil error; the other field of
`ks` has no influence; over any underlying writer, the state and the error are exactly those
of the one call `w.Write(ks.EncryptedKeyset)`. -/
theorem privKeyWriter_WriteEncrypted_verbatim (ks : EncryptedKeyset) (b : Bytes) :
    privKeyWriter.WriteEncrypted { w := bytesBuffer } (some ks) b
      = .done (b ++ ks.EncryptedKeyset) none
    ∧ (∀ info : Option KeysetInfo,
        privKeyWriter.WriteEncrypted { w := bytesBuffer }
          (some { EncryptedKeyset := ks.EncryptedKeyset, KeysetInfo := info }) b
        = .done (b ++ ks.EncryptedKeyset) none)
    ∧ (∀ (σ : Type) (w : IoWriter σ) (s : σ),
        privKeyWriter.WriteEncrypted { w := w } (some ks) s
        = .done (w.Write ks.EncryptedKeyset s).1 (w.Write ks.EncryptedKeyset s).2.2) :=
  ⟨rfl, fun _ => rfl, fun _ _ _ => rfl⟩

/-- Inversion of a normal return of `extractPrivKey` on a non-nil handle: the run took one of
the six returning paths, and the returned pair is the one of that path. -/
theorem extractPrivKey_ret_inv {Curve Key : Type} (env : Env Curve Key) (kh : Handle)
    (key : Option Key) (err : Option GoError)
    (hret : (extractPrivKey env (some kh)).out = .ret key err) :
    (∃ buf e,
        kh.Write (privKeyWriter.toWriter { w := bytesBuffer }) (noopAEAD.toAEAD {}) []
          = .done buf (some e)
        ∧ key = none
        ∧ err = some (fmtErrorfW "extractPrivKey: retrieving private key failed: " e))
    ∨ (∃ buf,
        kh.Write (privKeyWriter.toWriter { w := bytesBuffer }) (noopAEAD.toAEAD {}) []
          = .done buf none
        ∧ env.unmarshalKeyset buf = none
        ∧ key = none
        ∧ err = some (errorsNew "extractPrivKey: invalid private key"))
    ∨ (∃ buf ks entry rest keyData,
        kh.Write (privKeyWriter.toWriter { w := bytesBuffer }) (noopAEAD.toAEAD {}) []
          = .done buf none
        ∧ env.unmarshalKeyset buf = some ks
        ∧ ks.Key = entry :: rest
        ∧ entry.KeyData = some keyData
        ∧ ((keyData.TypeUrl ≠ ecdhesAESPrivateKeyTypeURL
            ∧ key = none
            ∧ err = some (errorsNew "extractPrivKey: can't extract unsupported private key"))
          ∨ (keyData.TypeUrl = ecdhesAESPrivateKeyTypeURL
            ∧ env.unmarshalPrivateKey keyData.Value = none
            ∧ key = none
            ∧ err = some (errorsNew "extractPrivKey: invalid key in keyset"))
          ∨ (keyData.TypeUrl = ecdhesAESPrivateKeyTypeURL
            ∧ ∃ pbKey publicKey params kwParams,
              env.unmarshalPrivateKey keyData.Value = some pbKey
              ∧ pbKey.PublicKey = some publicKey
              ∧ publicKey.Params = some params
              ∧ params.KwParams = some kwParams
              ∧ ((∃ e, env.GetCurve (env.curveTypeString kwParams.CurveType) = .error e
                    ∧ key = none
                    ∧ err = some (fmtErrorfW "extractPrivKey: invalid key: " e))
                ∨ (∃ c, env.GetCurve (env.curveTypeString kwParams.CurveType) = .ok c
                    ∧ key = some (env.GetECPrivateKey c pbKey.KeyValue)
                    ∧ err = none))))) := by
  cases hw : kh.Write (privKeyWriter.toWriter { w := bytesBuffer }) (noopAEAD.toAEAD {}) [] with
  | fault => simp [extractPrivKey, hw] at hret
  | done buf e =>
    cases e with
    | some e =>
      simp [extractPrivKey, hw] at hret
      exact Or.inl ⟨buf, e, rfl, hret.1.symm, hret.2.symm⟩
    | none =>
      refine Or.inr ?_
      cases hks : env.unmarshalKeyset buf with
      | none =>
        simp [extractPrivKey, hw, hks] at hret
        exact Or.inl ⟨buf, rfl, hks, hret.1.symm, hret.2.symm⟩
      | some ks =>
        refine Or.inr ?_
        cases hkey : ks.Key with
        | nil => simp [extractPrivKey, hw, hks, hkey] at hret
        | cons entry rest =>
          cases hkd : entry.KeyData with
          | none => simp [extractPrivKey, hw, hks, hkey, hkd] at hret
          | some keyData =>
            refine ⟨buf, ks, entry, rest, keyData, rfl, hks, hkey, hkd, ?_⟩
            by_cases hurl : keyData.TypeUrl = ecdhesAESPrivateKeyTypeURL
            · refine Or.inr ?_
              cases hpb : env.unmarshalPrivateKey keyData.Value with
              | none =>
                simp [extractPrivKey, hw, hks, hkey, hkd, hurl, hpb] at hret
                exact Or.inl ⟨hurl, rfl, hret.1.symm, hret.2.symm⟩
              | some pbKey =>
                refine Or.inr ⟨hurl, ?_⟩
                cases hpub : pbKey.PublicKey with
                | none => simp [extractPrivKey, hw, hks, hkey, hkd, hurl, hpb, hpub] at hret
                | some publicKey =>
                  cases hparams : publicKey.Params with
                  | none =>
                    simp [extractPrivKey, hw, hks, hkey, hkd, hurl, hpb, hpub, hparams] at hret
                  | some params =>
                    cases hkw : params.KwParams with
                    | none =>
                      simp [extractPrivKey, hw, hks, hkey, hkd, hurl, hpb, hpub, hparams,
                        hkw] at hret
                    | some kwParams =>
                      refine ⟨pbKey, publicKey, params, kwParams, rfl, hpub, hparams, hkw, ?_⟩
                      cases hcurve : env.GetCurve (env.curveTypeString kwParams.CurveType) with
                      | error e =>
                        simp [extractPrivKey, hw, hks, hkey, hkd, hurl, hpb, hpub, hparams,
                          hkw, hcurve] at hret
                        exact Or.inl ⟨e, rfl, hret.1.symm, hret.2.symm⟩
                      | ok c =>
                        simp [extractPrivKey, hw, hks, hkey, hkd, hurl, hpb, hpub, hparams,
                          hkw, hcurve] at hret
                        exact Or.inr ⟨c, rfl, hret.1.symm, hret.2.symm⟩
            · simp [extractPrivKey, hw, hks, hkey, hkd, hurl] at hret
              exact Or.inl ⟨hurl, hret.1.symm, hret.2.symm⟩

/-- The faults of `extractPrivKey` on a non-nil handle: either the serialization itself
panics, or the run dereferences an absent value as listed in `faultCondition`. -/
theorem extractPrivKey_fault_iff {Curve Key : Type} (env : Env Curve Key) (kh : Handle) :
    (extractPrivKey env (some kh)).out = .fault
      ↔ (kh.Write (privKeyWriter.toWriter { w := bytesBuffer }) (noopAEAD.toAEAD {}) []
            = .fault
          ∨ faultCondition env kh) := by
  constructor
  · intro hf
    cases hw : kh.Write (privKeyWriter.toWriter { w := bytesBuffer }) (noopAEAD.toAEAD {}) []
      with
    | fault => exact Or.inl rfl
    | done buf e =>
      refine Or.inr ?_
      cases e with
      | some e => simp [extractPrivKey, hw] at hf
      | none =>
        cases hks : env.unmarshalKeyset buf with
        | none => simp [extractPrivKey, hw, hks] at hf
        | some ks =>
          refine ⟨buf, ks, hw, hks, ?_⟩
          cases hkey : ks.Key with
          | nil => exact Or.inl rfl
          | cons entry rest =>
            refine Or.inr ⟨entry, rest, rfl, ?_⟩
            cases hkd : entry.KeyData with
            | none => exact Or.inl rfl
            | some keyData =>
              refine Or.inr ?_
              by_cases hurl : keyData.TypeUrl = ecdhesAESPrivateKeyTypeURL
              · cases hpb : env.unmarshalPrivateKey keyData.Value with
                | none => simp [extractPrivKey, hw, hks, hkey, hkd, hurl, hpb] at hf
                | some pbKey =>
                  refine ⟨keyData, pbKey, rfl, hurl, hpb, ?_⟩
                  cases hpub : pbKey.PublicKey with
                  | none => exact Or.inl rfl
                  | some publicKey =>
                    refine Or.inr ⟨publicKey, rfl, ?_⟩
                    cases hparams : publicKey.Params with
                    | none => exact Or.inl rfl
                    | some params =>
                      refine Or.inr ⟨params, rfl, ?_⟩
                      cases hkw : params.KwParams with
                      | none => rfl
                      | some kwParams =>
                        cases hcurve :
                          env.GetCurve (env.curveTypeString kwParams.CurveType) with
                        | error e =>
                          simp [extractPrivKey, hw, hks, hkey, hkd, hurl, hpb, hpub, hparams,
                            hkw, hcurve] at hf
                        | ok c =>
                          simp [extractPrivKey, hw, hks, hkey, hkd, hurl, hpb, hpub, hparams,
                            hkw, hcurve] at hf
              · simp [extractPrivKey, hw, hks, hkey, hkd, hurl] at hf
  · rintro (hw | ⟨buf, ks, hw, hks, hcase⟩)
    · simp [extractPrivKey, hw]
    · rcases hcase with hkey | ⟨entry, rest, hkey, hcase⟩
      · simp [extractPrivKey, hw, hks, hkey]
      · rcases hcase with hkd | ⟨keyData, pbKey, hkd, hurl, hpb, hcase⟩
        · simp [extractPrivKey, hw, hks, hkey, hkd]
        · rcases hcase with hpub | ⟨publicKey, hpub, hcase⟩
          · simp [extractPrivKey, hw, hks, hkey, hkd, hurl, hpb, hpub]
          · rcases hcase with hparams | ⟨params, hparams, hkw⟩
            · simp [extractPrivKey, hw, hks, hkey, hkd, hurl, hpb, hpub, hparams]
            · simp [extractPrivKey, hw, hks, hkey, hkd, hurl, hpb, hpub, hparams, hkw]

/-- After a successful serialization the capture buffer of the run holds the bytes that the
serialization left there, and the first decode is applied to exactly these bytes. -/
theorem extractPrivKey_decodes_capture {Curve Key : Type} (env : Env Curve Key) (kh : Handle)
    (buf : Bytes)
    (hw : kh.Write (privKeyWriter.toWriter { w := bytesBuffer }) (noopAEAD.toAEAD {}) []
      = .done buf none) :
    (extractPrivKey env (some kh)).buf = buf
    ∧ (extractPrivKey env (some kh)).calls.take 2 = [.handleWrite, .unmarshalKeyset buf] := by
  cases hks : env.unmarshalKeyset buf with
  | none => simp [extractPrivKey, hw, hks]
  | some ks =>
    cases hkey : ks.Key with
    | nil => simp [extractPrivKey, hw, hks, hkey]
    | cons entry rest =>
      cases hkd : entry.KeyData with
      | none => simp [extractPrivKey, hw, hks, hkey, hkd]
      | some keyData =>
        by_cases hurl : keyData.TypeUrl = ecdhesAESPrivateKeyTypeURL
        · cases hpb : env.unmarshalPrivateKey keyData.Value with
          | none => simp [extractPrivKey, hw, hks, hkey, hkd, hurl, hpb]
          | some pbKey =>
            cases hpub : pbKey.PublicKey with
            | none => simp [extractPrivKey, hw, hks, hkey, hkd, hurl, hpb, hpub]
            | some publicKey =>
              cases hparams : publicKey.Params with
              | none => simp [extractPrivKey, hw, hks, hkey, hkd, hurl, hpb, hpub, hparams]
              | some params =>
                cases hkw : params.KwParams with
                | none =>
                  simp [extractPrivKey, hw, hks, hkey, hkd, hurl, hpb, hpub, hparams, hkw]
                | some kwParams =>
                  cases hcurve : env.GetCurve (env.curveTypeString kwParams.CurveType) with
                  | error e =>
                    simp [extractPrivKey, hw, hks, hkey, hkd, hurl, hpb, hpub, hparams, hkw,
                      hcurve]
                  | ok c =>
                    simp [extractPrivKey, hw, hks, hkey, hkd, hurl, hpb, hpub, hparams, hkw,
                      hcurve]
        · simp [extractPrivKey, hw, hks, hkey, hkd, hurl]

/-- C11: for every keyset argument, nil included, `privKeyWriter.Write` returns the error
`privKeyWriter: write function not supported` and leaves the underlying writer, in
particular an in-memory buffer, as it was. -/
theorem privKeyWriter_Write_unsupported (ks : Option Keyset) (b : Bytes) :
    privKeyWriter.Write { w := bytesBuffer } ks b
      = .done b (some (.errorString "privKeyWriter: write function not supported"))
    ∧ (GoError.errorString "privKeyWriter: write function not supported").Error
      = "privKeyWriter: write function not supported"
    ∧ (∀ (σ : Type) (p : privKeyWriter σ) (s : σ),
        p.Write ks s
          = .done s (some (.errorString "privKeyWriter: write function not supported"))) :=
  ⟨rfl, rfl, fun _ _ _ => rfl⟩

/-- A buffer from `new(bytes.Buffer)` is empty, whatever the heap holds already. -/
theorem Heap.newBuffer_bytesAt (heap : Heap) :
    (heap.newBuffer.2).bytesAt heap.newBuffer.1 = [] := by
  simp [Heap.newBuffer, Heap.bytesAt]

/-- Storing into the buffer from `new(bytes.Buffer)` leaves the older buffers as they are. -/
theorem Heap.newBuffer_store (heap : Heap) (b : Bytes) :
    ((heap.newBuffer.2).store heap.newBuffer.1 b).buffers = heap.buffers ++ [b] := by
  simp [Heap.newBuffer, Heap.store]

/-- On an empty buffer the body of `extractPrivKey` is the function `extractPrivKey`. -/
theorem extractPrivKeyFrom_nil {Curve Key : Type} (env : Env Curve Key) (kh : Option Handle) :
    extractPrivKeyFrom env kh [] = extractPrivKey env kh := rfl

/-- The run of a call does not depend on the heap on which the call starts. -/
theorem extractPrivKeyCall_run {Curve Key : Type} (env : Env Curve Key) (kh : Option Handle)
    (heap : Heap) : (extractPrivKeyCall env kh heap).1 = extractPrivKey env kh := by
  have h := Heap.newBuffer_bytesAt heap
  simp only [extractPrivKeyCall]
  rw [h, extractPrivKeyFrom_nil]

/-- The heap after a call: the heap before it, and the buffer of the call behind it. -/
theorem extractPrivKeyCall_heap {Curve Key : Type} (env : Env Curve Key) (kh : Option Handle)
    (heap : Heap) :
    (extractPrivKeyCall env kh heap).2.buffers
      = heap.buffers ++ [(extractPrivKey env kh).buf] := by
  have h := Heap.newBuffer_bytesAt heap
  simp only [extractPrivKeyCall]
  rw [h, extractPrivKeyFrom_nil]
  exact Heap.newBuffer_store heap _

/-- C12: two successive calls of `extractPrivKey` on the same valid handle, the second on the
heap that the first has left, starting from any heap: both return a nil error and the same
key, built from the same curve `c` and the same private scalar bytes; the first call leaves
its captured bytes on the heap, and still the buffer of the second call holds the bytes of
one serialization only, because each call allocates a new, empty buffer. -/
theorem extractPrivKey_two_calls {Curve Key : Type} (env : Env Curve Key) (kh : Handle)
    (heap : Heap) (buf : Bytes) (ks : Keyset) (entry : Keyset_Key) (rest : List Keyset_Key)
    (keyData : KeyData) (pbKey : EcdhesAeadPrivateKey) (publicKey : EcdhesAeadPublicKey)
    (params : EcdhesAeadParams) (kwParams : EcdhesKwParams) (c : Curve)
    (hwrite : kh.Write (privKeyWriter.toWriter { w := bytesBuffer }) (noopAEAD.toAEAD {}) []
      = .done buf none)
    (hks : env.unmarshalKeyset buf = some ks)
    (hkey : ks.Key = entry :: rest)
    (hkd : entry.KeyData = some keyData)
    (hurl : keyData.TypeUrl
      = "type.hyperledger.org/hyperledger.aries.crypto.tink.EcdhesAesAeadPrivateKey")
    (hpb : env.unmarshalPrivateKey keyData.Value = some pbKey)
    (hpub : pbKey.PublicKey = some publicKey)
    (hparams : publicKey.Params = some params)
    (hkw : params.KwParams = some kwParams)
    (hcurve : env.GetCurve (env.curveTypeString kwParams.CurveType) = .ok c) :
    (extractPrivKeyCall env (some kh) heap).1.out
      = .ret (some (env.GetECPrivateKey c pbKey.KeyValue)) none
    ∧ (extractPrivKeyCall env (some kh) (extractPrivKeyCall env (some kh) heap).2).1.out
      = .ret (some (env.GetECPrivateKey c pbKey.KeyValue)) none
    ∧ (extractPrivKeyCall env (some kh) heap).2.buffers = heap.buffers ++ [buf]
    ∧ (extractPrivKeyCall env (some kh) (extractPrivKeyCall env (some kh) heap).2).1.buf = buf
    ∧ (extractPrivKeyCall env (some kh) (extractPrivKeyCall env (some kh) heap).2).2.buffers
      = heap.buffers ++ [buf, buf] := by
  have hrun : extractPrivKey env (some kh) =
      { buf := buf,
        calls := [.handleWrite, .unmarshalKeyset buf, .unmarshalPrivateKey keyData.Value,
          .getCurve (env.curveTypeString kwParams.CurveType),
          .getECPrivateKey pbKey.KeyValue],
        out := .ret (some (env.GetECPrivateKey c pbKey.KeyValue)) none } := by
    simp [extractPrivKey, hwrite, hks, hkey, hkd, hurl, ecdhesAESPrivateKeyTypeURL, hpb, hpub,
      hparams, hkw, hcurve]
  refine ⟨?_, ?_, ?_, ?_, ?_⟩
  · rw [extractPrivKeyCall_run, hrun]
  · rw [extractPrivKeyCall_run, hrun]
  · rw [extractPrivKeyCall_heap, hrun]
  · rw [extractPrivKeyCall_run, hrun]
  · rw [extractPrivKeyCall_heap, extractPrivKeyCall_heap, hrun]
    simp

/-- Witness for C12: two calls on the sample handle over the one-entry keyset `[1]`, from
the empty heap; after the first call the heap holds `[1]`, and the buffer of the second call
is `[1]`, not `[1, 1]`. -/
theorem extractPrivKey_two_calls_witness :
    (extractPrivKeyCall sampleEnv (some (serializingHandle [1] none)) { buffers := [] }).1.out
      = .ret (some ("P-256", [7, 1, 255])) none
    ∧ (extractPrivKeyCall sampleEnv (some (serializingHandle [1] none))
        (extractPrivKeyCall sampleEnv (some (serializingHandle [1] none))
          { buffers := [] }).2).1.out
      = .ret (some ("P-256", [7, 1, 255])) none
    ∧ (extractPrivKeyCall sampleEnv (some (serializingHandle [1] none))
        { buffers := [] }).2.buffers = [] ++ [[1]]
    ∧ (extractPrivKeyCall sampleEnv (some (serializingHandle [1] none))
        (extractPrivKeyCall sampleEnv (some (serializingHandle [1] none))
          { buffers := [] }).2).1.buf = [1]
    ∧ (extractPrivKeyCall sampleEnv (some (serializingHandle [1] none))
        (extractPrivKeyCall sampleEnv (some (serializingHandle [1] none))
          { buffers := [] }).2).2.buffers = [] ++ [[1], [1]] :=
  extractPrivKey_two_calls sampleEnv (serializingHandle [1] none) { buffers := [] } [1]
    { PrimaryKeyId := 1, Key := [sampleEntry ecdhesAESPrivateKeyTypeURL [10]] }
    (sampleEntry ecdhesAESPrivateKeyTypeURL [10]) []
    { TypeUrl := ecdhesAESPrivateKeyTypeURL, Value := [10], KeyMaterialType := 2 }
    (samplePrivateKey 2) { Params := some { KwParams := some { CurveType := 2 } } }
    { KwParams := some { CurveType := 2 } } { CurveType := 2 } "P-256"
    rfl rfl rfl rfl rfl rfl rfl rfl rfl rfl

/-- A first entry without key data makes `primaryKey.KeyData.TypeUrl` panic: once the
envelope has decoded to a keyset whose first entry has a nil `KeyData`, `extractPrivKey`
faults, whatever the later entries and the other collaborators are. -/
theorem extractPrivKey_fault_of_no_key_data {Curve Key : Type} (env : Env Curve Key)
    (kh : Handle) (buf : Bytes) (ks : Keyset) (entry : Keyset_Key) (rest : List Keyset_Key)
    (hwrite : kh.Write (privKeyWriter.toWriter { w := bytesBuffer }) (noopAEAD.toAEAD {}) []
      = .done buf none)
    (hks : env.unmarshalKeyset buf = some ks)
    (hkey : ks.Key = entry :: rest)
    (hkd : entry.KeyData = none) :
    extractPrivKey env (some kh) =
      { buf := buf, calls := [.handleWrite, .unmarshalKeyset buf], out := .fault } := by
  simp [extractPrivKey, hwrite, hks, hkey, hkd]

/-- C3: the claim asks for the unsupported-key-type error whenever the first entry does not
carry the expected type URL. On the keyset `[6]`, whose first entry carries no key data (so
no type URL but the empty default) and whose second entry is a valid entry of the expected
type, `extractPrivKey` returns neither that error nor any other: reading
`primaryKey.KeyData.TypeUrl` panics. -/
theorem extractPrivKey_first_entry_without_key_data_faults :
    sampleEnvNoKeyData.unmarshalKeyset [6]
      = some { PrimaryKeyId := 1,
               Key := [{ KeyData := none, Status := 1, KeyId := 1 },
                       sampleEntry ecdhesAESPrivateKeyTypeURL [10]] }
    ∧ extractPrivKey sampleEnvNoKeyData (some (serializingHandle [6] none)) =
      { buf := [6], calls := [.handleWrite, .unmarshalKeyset [6]], out := .fault }
    ∧ (extractPrivKey sampleEnvNoKeyData (some (serializingHandle [6] none))).out
      ≠ .ret none
          (some (.errorString "extractPrivKey: can't extract unsupported private key")) :=
  ⟨rfl,
    extractPrivKey_fault_of_no_key_data sampleEnvNoKeyData (serializingHandle [6] none) [6]
      { PrimaryKeyId := 1,
        Key := [{ KeyData := none, Status := 1, KeyId := 1 },
                sampleEntry ecdhesAESPrivateKeyTypeURL [10]] }
      { KeyData := none, Status := 1, KeyId := 1 }
      [sampleEntry ecdhesAESPrivateKeyTypeURL [10]] rfl rfl rfl rfl,
    by
      rw [extractPrivKey_fault_of_no_key_data sampleEnvNoKeyData (serializingHandle [6] none)
        [6]
        { PrimaryKeyId := 1,
          Key := [{ KeyData := none, Status := 1, KeyId := 1 },
                  sampleEntry ecdhesAESPrivateKeyTypeURL [10]] }
        { KeyData := none, Status := 1, KeyId := 1 }
        [sampleEntry ecdhesAESPrivateKeyTypeURL [10]] rfl rfl rfl rfl]
      intro h
      cases h⟩

/-- C13: whenever `extractPrivKey` returns, exactly one of key and error is non-nil; and a
non-nil key is returned only for a non-nil handle whose serialization succeeded, whose
captured bytes decoded to a keyset, whose first entry has the expected type URL, whose
payload decoded, and whose curve identifier the registry resolved. -/
theorem extractPrivKey_no_mixed_result {Curve Key : Type} (env : Env Curve Key)
    (kh : Option Handle) (key : Option Key) (err : Option GoError)
    (hret : (extractPrivKey env kh).out = .ret key err) :
    ((key.isSome = true ∧ err = none) ∨ (key = none ∧ err.isSome = true))
    ∧ (key.isSome = true →
        ∃ (h : Handle) (buf : Bytes) (ks : Keyset) (entry : Keyset_Key)
          (rest : List Keyset_Key) (keyData : KeyData) (pbKey : EcdhesAeadPrivateKey)
          (publicKey : EcdhesAeadPublicKey) (params : EcdhesAeadParams)
          (kwParams : EcdhesKwParams) (c : Curve),
          kh = some h
          ∧ h.Write (privKeyWriter.toWriter { w := bytesBuffer }) (noopAEAD.toAEAD {}) []
              = .done buf none
          ∧ env.unmarshalKeyset buf = some ks
          ∧ ks.Key = entry :: rest
          ∧ entry.KeyData = some keyData
          ∧ keyData.TypeUrl
              = "type.hyperledger.org/hyperledger.aries.crypto.tink.EcdhesAesAeadPrivateKey"
          ∧ env.unmarshalPrivateKey keyData.Value = some pbKey
          ∧ pbKey.PublicKey = some publicKey
          ∧ publicKey.Params = some params
          ∧ params.KwParams = some kwParams
          ∧ env.GetCurve (env.curveTypeString kwParams.CurveType) = .ok c
          ∧ key = some (env.GetECPrivateKey c pbKey.KeyValue)) := by
  cases kh with
  | none =>
    simp [extractPrivKey] at hret
    obtain ⟨rfl, rfl⟩ := hret
    simp
  | some h =>
    rcases extractPrivKey_ret_inv env h key err hret with
      ⟨buf, e, -, rfl, rfl⟩ | ⟨buf, -, -, rfl, rfl⟩ |
      ⟨buf, ks, entry, rest, keyData, hw, hks, hkey, hkd, hcase⟩
    · simp
    · simp
    · rcases hcase with ⟨-, rfl, rfl⟩ | ⟨-, -, rfl, rfl⟩ |
        ⟨hurl, pbKey, publicKey, params, kwParams, hpb, hpub, hparams, hkw, hcurve⟩
      · simp
      · simp
      · rcases hcurve with ⟨e, -, rfl, rfl⟩ | ⟨c, hc, rfl, rfl⟩
        · simp
        · refine ⟨Or.inl ⟨rfl, rfl⟩, fun _ => ?_⟩
          exact ⟨h, buf, ks, entry, rest, keyData, pbKey, publicKey, params, kwParams, c,
            rfl, hw, hks, hkey, hkd, hurl, hpb, hpub, hparams, hkw, hc, rfl⟩

/-- Witness for C13: the run on the sample handle over the keyset `[1]` returns a key and a
nil error, not both and not neither. -/
theorem extractPrivKey_no_mixed_result_witness :
    ((some ("P-256", [7, 1, 255]) : Option (String × Bytes)).isSome = true
        ∧ (none : Option GoError) = none)
      ∨ ((some ("P-256", [7, 1, 255]) : Option (String × Bytes)) = none
        ∧ (none : Option GoError).isSome = true) :=
  (extractPrivKey_no_mixed_result sampleEnv (some (serializingHandle [1] none))
    (some ("P-256", [7, 1, 255])) none rfl).1

/-- C14: every error that `extractPrivKey` returns has a message that starts with
`extractPrivKey: `; when the serialization returned the error `e`, the returned error
unwraps to `e`; when the curve registry rejected the curve identifier with the error `e`,
the returned error unwraps to `e`. -/
theorem extractPrivKey_error_shape {Curve Key : Type} (env : Env Curve Key)
    (kh : Option Handle) (key : Option Key) (err : GoError)
    (hret : (extractPrivKey env kh).out = .ret key (some err)) :
    (∃ tail : String, err.Error = "extractPrivKey: " ++ tail)
    ∧ (∀ (h : Handle) (buf : Bytes) (e : GoError),
        kh = some h →
        h.Write (privKeyWriter.toWriter { w := bytesBuffer }) (noopAEAD.toAEAD {}) []
          = .done buf (some e) →
        err.Unwrap = some e
        ∧ err.Error = "extractPrivKey: retrieving private key failed: " ++ e.Error)
    ∧ (∀ (h : Handle) (buf : Bytes) (ks : Keyset) (entry : Keyset_Key)
        (rest : List Keyset_Key) (keyData : KeyData) (pbKey : EcdhesAeadPrivateKey)
        (publicKey : EcdhesAeadPublicKey) (params : EcdhesAeadParams)
        (kwParams : EcdhesKwParams) (e : GoError),
        kh = some h →
        h.Write (privKeyWriter.toWriter { w := bytesBuffer }) (noopAEAD.toAEAD {}) []
          = .done buf none →
        env.unmarshalKeyset buf = some ks →
        ks.Key = entry :: rest →
        entry.KeyData = some keyData →
        keyData.TypeUrl
          = "type.hyperledger.org/hyperledger.aries.crypto.tink.EcdhesAesAeadPrivateKey" →
        env.unmarshalPrivateKey keyData.Value = some pbKey →
        pbKey.PublicKey = some publicKey →
        publicKey.Params = some params →
        params.KwParams = some kwParams →
        env.GetCurve (env.curveTypeString kwParams.CurveType) = .error e →
        err.Unwrap = some e
        ∧ err.Error = "extractPrivKey: invalid key: " ++ e.Error) := by
  refine ⟨?_, ?_, ?_⟩
  · cases kh with
    | none =>
      simp [extractPrivKey] at hret
      obtain ⟨-, rfl⟩ := hret
      exact ⟨"kh is nil", rfl⟩
    | some h =>
      rcases extractPrivKey_ret_inv env h key (some err) hret with
        ⟨buf, e, -, -, herr⟩ | ⟨buf, -, -, -, herr⟩ |
        ⟨buf, ks, entry, rest, keyData, -, -, -, -, hcase⟩
      · obtain rfl := Option.some.inj herr
        exact ⟨"retrieving private key failed: " ++ e.Error, by
          simp only [fmtErrorfW, GoError.Error]
          rw [← String.append_assoc]; rfl⟩
      · obtain rfl := Option.some.inj herr
        exact ⟨"invalid private key", rfl⟩
      · rcases hcase with ⟨-, -, herr⟩ | ⟨-, -, -, herr⟩ |
          ⟨-, pbKey, publicKey, params, kwParams, -, -, -, -, hcurve⟩
        · obtain rfl := Option.some.inj herr
          exact ⟨"can't extract unsupported private key", rfl⟩
        · obtain rfl := Option.some.inj herr
          exact ⟨"invalid key in keyset", rfl⟩
        · rcases hcurve with ⟨e, -, -, herr⟩ | ⟨c, -, -, herr⟩
          · obtain rfl := Option.some.inj herr
            exact ⟨"invalid key: " ++ e.Error, by
              simp only [fmtErrorfW, GoError.Error]
              rw [← String.append_assoc]; rfl⟩
          · cases herr
  · intro h buf e hkh hw
    subst hkh
    simp [extractPrivKey, hw] at hret
    obtain ⟨-, rfl⟩ := hret
    exact ⟨rfl, rfl⟩
  · intro h buf ks entry rest keyData pbKey publicKey params kwParams e hkh hw hks hkey hkd
      hurl hpb hpub hparams hkw hcurve
    subst hkh
    simp [extractPrivKey, hw, hks, hkey, hkd, hurl, ecdhesAESPrivateKeyTypeURL, hpb, hpub,
      hparams, hkw, hcurve] at hret
    obtain ⟨-, rfl⟩ := hret
    exact ⟨rfl, rfl⟩

/-- Witness for C14: the error returned for a handle that refuses to serialize with `boom`
starts with the operation name. -/
theorem extractPrivKey_error_shape_witness :
    ∃ tail : String,
      (GoError.wrapError "extractPrivKey: retrieving private key failed: boom"
        (.errorString "boom")).Error = "extractPrivKey: " ++ tail :=
  (extractPrivKey_error_shape sampleEnv (some (refusingHandle (.errorString "boom"))) none
    (.wrapError "extractPrivKey: retrieving private key failed: boom" (.errorString "boom"))
    rfl).1

/-- C15: for every keyset `ks` with serialization `marshal ks` and every associated data
`ad`, the serialization of the handle, run with `noopAEAD` and a `privKeyWriter` over an
empty buffer, succeeds and leaves exactly `marshal ks` in the buffer; these are the bytes
that `extractPrivKey` holds in its buffer and hands to the keyset decoder. -/
theorem handleSerialization_captures_plain {Curve Key : Type} (env : Env Curve Key)
    (marshal : Keyset → Bytes) (ks : Keyset) (ad : Bytes) (info : Option KeysetInfo) :
    (handleSerialization marshal ks ad info).Write
        (privKeyWriter.toWriter { w := bytesBuffer }) (noopAEAD.toAEAD {}) []
      = .done (marshal ks) none
    ∧ (extractPrivKey env (some (handleSerialization marshal ks ad info))).buf = marshal ks
    ∧ (extractPrivKey env (some (handleSerialization marshal ks ad info))).calls.take 2
      = [.handleWrite, .unmarshalKeyset (marshal ks)] := by
  have hw : (handleSerialization marshal ks ad info).Write
      (privKeyWriter.toWriter { w := bytesBuffer }) (noopAEAD.toAEAD {}) []
      = .done (marshal ks) none := by
    simp [handleSerialization, privKeyWriter.toWriter, privKeyWriter.WriteEncrypted, write,
      bytesBuffer, noopAEAD.toAEAD, noopAEAD.Encrypt]
  exact ⟨hw, extractPrivKey_decodes_capture env _ _ hw⟩

/-- C16: on a non-nil handle `extractPrivKey` returns normally exactly when
`returnCondition` holds (the serialization fails, or the envelope does not decode, or the
first entry has key data and a mismatching type URL, an undecodable payload, or a payload
with descriptor, params and key-wrap params present); in every other case it faults, and
the faults are those of `faultCondition` (an empty entry list, a first entry without key
data, a decoded payload without descriptor, params or key-wrap params) together with a panic
of the serialization itself. -/
theorem extractPrivKey_returns_iff {Curve Key : Type} (env : Env Curve Key) (kh : Handle) :
    ((∃ key err, (extractPrivKey env (some kh)).out = .ret key err) ↔ returnCondition env kh)
    ∧ ((extractPrivKey env (some kh)).out = .fault ↔ ¬ returnCondition env kh)
    ∧ ((extractPrivKey env (some kh)).out = .fault
        ↔ (kh.Write (privKeyWriter.toWriter { w := bytesBuffer }) (noopAEAD.toAEAD {}) []
              = .fault
            ∨ faultCondition env kh)) := by
  have hiff : (∃ key err, (extractPrivKey env (some kh)).out = .ret key err)
      ↔ returnCondition env kh := by
    constructor
    · rintro ⟨key, err, hret⟩
      rcases extractPrivKey_ret_inv env kh key err hret with
        ⟨buf, e, hw, -, -⟩ | ⟨buf, hw, hks, -, -⟩ |
        ⟨buf, ks, entry, rest, keyData, hw, hks, hkey, hkd, hcase⟩
      · exact Or.inl ⟨buf, e, hw⟩
      · exact Or.inr (Or.inl ⟨buf, hw, hks⟩)
      · refine Or.inr (Or.inr ⟨buf, ks, entry, rest, keyData, hw, hks, hkey, hkd, ?_⟩)
        rcases hcase with ⟨hurl, -, -⟩ | ⟨-, hpb, -, -⟩ |
          ⟨-, pbKey, publicKey, params, kwParams, hpb, hpub, hparams, hkw, -⟩
        · exact Or.inl hurl
        · exact Or.inr (Or.inl hpb)
        · exact Or.inr (Or.inr ⟨pbKey, publicKey, params, kwParams, hpb, hpub, hparams, hkw⟩)
    · rintro (⟨buf, e, hw⟩ | ⟨buf, hw, hks⟩ |
        ⟨buf, ks, entry, rest, keyData, hw, hks, hkey, hkd, hcase⟩)
      · exact ⟨_, _, by simp [extractPrivKey, hw]; exact ⟨rfl, rfl⟩⟩
      · exact ⟨_, _, by simp [extractPrivKey, hw, hks]; exact ⟨rfl, rfl⟩⟩
      · by_cases hurl : keyData.TypeUrl = ecdhesAESPrivateKeyTypeURL
        · cases hpb : env.unmarshalPrivateKey keyData.Value with
          | none =>
            exact ⟨_, _, by
              simp [extractPrivKey, hw, hks, hkey, hkd, hurl, hpb]; exact ⟨rfl, rfl⟩⟩
          | some pbKey =>
            rcases hcase with hne | hnone |
              ⟨pbKey', publicKey, params, kwParams, hpb', hpub, hparams, hkw⟩
            · exact absurd hurl hne
            · rw [hpb] at hnone; cases hnone
            · rw [hpb] at hpb'
              obtain rfl := Option.some.inj hpb'
              cases hcurve : env.GetCurve (env.curveTypeString kwParams.CurveType) with
              | error e =>
                exact ⟨_, _, by
                  simp [extractPrivKey, hw, hks, hkey, hkd, hurl, hpb, hpub, hparams, hkw,
                    hcurve]
                  exact ⟨rfl, rfl⟩⟩
              | ok c =>
                exact ⟨_, _, by
                  simp [extractPrivKey, hw, hks, hkey, hkd, hurl, hpb, hpub, hparams, hkw,
                    hcurve]
                  exact ⟨rfl, rfl⟩⟩
        · exact ⟨_, _, by simp [extractPrivKey, hw, hks, hkey, hkd, hurl]; exact ⟨rfl, rfl⟩⟩
  refine ⟨hiff, ⟨?_, ?_⟩, extractPrivKey_fault_iff env kh⟩
  · intro hfault hcond
    obtain ⟨key, err, hret⟩ := hiff.mpr hcond
    rw [hfault] at hret
    cases hret
  · intro hcond
    cases hout : (extractPrivKey env (some kh)).out with
    | fault => rfl
    | ret key err => exact absurd (hiff.mp ⟨key, err, hout⟩) hcond

/-- C17: the failures of `extractPrivKey` have a fixed precedence: nil handle, then
serialization, then envelope decode, then the type URL of the first entry, then payload
decode, then curve resolution. Each run below is fixed by the first failing check alone,
whatever the later collaborators would do, and it stops there (the later collaborators are
not called). In particular a first entry with a mismatching type URL and an undecodable
payload gives the unsupported-key-type error, and a first entry with the expected type URL
and an undecodable payload gives `invalid key in keyset` for every curve registry. -/
theorem extractPrivKey_failure_precedence {Curve Key : Type} (env : Env Curve Key) :
    extractPrivKey env none
      = { buf := [], calls := [],
          out := .ret none (some (.errorString "extractPrivKey: kh is nil")) }
    ∧ ∀ kh : Handle,
      (∀ buf e,
        kh.Write (privKeyWriter.toWriter { w := bytesBuffer }) (noopAEAD.toAEAD {}) []
          = .done buf (some e) →
        extractPrivKey env (some kh)
          = { buf := buf, calls := [.handleWrite],
              out := .ret none (some (.wrapError
                ("extractPrivKey: retrieving private key failed: " ++ e.Error) e)) })
      ∧ ∀ buf,
        kh.Write (privKeyWriter.toWriter { w := bytesBuffer }) (noopAEAD.toAEAD {}) []
          = .done buf none →
        (env.unmarshalKeyset buf = none →
          extractPrivKey env (some kh)
            = { buf := buf, calls := [.handleWrite, .unmarshalKeyset buf],
                out := .ret none (some (.errorString "extractPrivKey: invalid private key")) })
        ∧ ∀ ks entry rest keyData,
          env.unmarshalKeyset buf = some ks →
          ks.Key = entry :: rest →
          entry.KeyData = some keyData →
          (keyData.TypeUrl
              ≠ "type.hyperledger.org/hyperledger.aries.crypto.tink.EcdhesAesAeadPrivateKey" →
            extractPrivKey env (some kh)
              = { buf := buf, calls := [.handleWrite, .unmarshalKeyset buf],
                  out := .ret none (some (.errorString
                    "extractPrivKey: can't extract unsupported private key")) })
          ∧ (keyData.TypeUrl
              ≠ "type.hyperledger.org/hyperledger.aries.crypto.tink.EcdhesAesAeadPrivateKey" →
            env.unmarshalPrivateKey keyData.Value = none →
            (extractPrivKey env (some kh)).out
              = .ret none (some (.errorString
                  "extractPrivKey: can't extract unsupported private key")))
          ∧ (keyData.TypeUrl
              = "type.hyperledger.org/hyperledger.aries.crypto.tink.EcdhesAesAeadPrivateKey" →
            env.unmarshalPrivateKey keyData.Value = none →
            extractPrivKey env (some kh)
              = { buf := buf,
                  calls := [.handleWrite, .unmarshalKeyset buf,
                    .unmarshalPrivateKey keyData.Value],
                  out := .ret none
                    (some (.errorString "extractPrivKey: invalid key in keyset")) })
          ∧ ∀ pbKey publicKey params kwParams e,
            keyData.TypeUrl
              = "type.hyperledger.org/hyperledger.aries.crypto.tink.EcdhesAesAeadPrivateKey" →
            env.unmarshalPrivateKey keyData.Value = some pbKey →
            pbKey.PublicKey = some publicKey →
            publicKey.Params = some params →
            params.KwParams = some kwParams →
            env.GetCurve (env.curveTypeString kwParams.CurveType) = .error e →
            extractPrivKey env (some kh)
              = { buf := buf,
                  calls := [.handleWrite, .unmarshalKeyset buf,
                    .unmarshalPrivateKey keyData.Value,
                    .getCurve (env.curveTypeString kwParams.CurveType)],
                  out := .ret none (some (.wrapError
                    ("extractPrivKey: invalid key: " ++ e.Error) e)) } := by
  refine ⟨rfl, fun kh => ⟨?_, fun buf hw => ⟨?_, fun ks entry rest keyData hks hkey hkd =>
    ⟨?_, ?_, ?_, ?_⟩⟩⟩⟩
  · intro buf e hw
    simp [extractPrivKey, hw, fmtErrorfW]
  · intro hks
    simp [extractPrivKey, hw, hks, errorsNew]
  · intro hurl
    simp [extractPrivKey, hw, hks, hkey, hkd, hurl, ecdhesAESPrivateKeyTypeURL, errorsNew]
  · intro hurl _
    simp [extractPrivKey, hw, hks, hkey, hkd, hurl, ecdhesAESPrivateKeyTypeURL, errorsNew]
  · intro hurl hpb
    simp [extractPrivKey, hw, hks, hkey, hkd, hurl, ecdhesAESPrivateKeyTypeURL, hpb,
      errorsNew]
  · intro pbKey publicKey params kwParams e hurl hpb hpub hparams hkw hcurve
    simp [extractPrivKey, hw, hks, hkey, hkd, hurl, ecdhesAESPrivateKeyTypeURL, hpb, hpub,
      hparams, hkw, hcurve, fmtErrorfW]

/-- Witness for C17: in the keyset `[2]` the first entry has another type
URL and, for a payload decoder that rejects everything, an undecodable payload; the run
reports the unsupported key type. -/
theorem extractPrivKey_failure_precedence_witness :
    (extractPrivKey sampleEnvNoPayload (some (serializingHandle [2] none))).out
      = .ret none (some (.errorString
          "extractPrivKey: can't extract unsupported private key")) :=
  ((((extractPrivKey_failure_precedence sampleEnvNoPayload).2
      (serializingHandle [2] none)).2 [2] rfl).2
      { PrimaryKeyId := 1,
        Key := [sampleEntry "type.googleapis.com/google.crypto.tink.AesGcmKey" [10],
                sampleEntry ecdhesAESPrivateKeyTypeURL [10]] }
      (sampleEntry "type.googleapis.com/google.crypto.tink.AesGcmKey" [10])
      [sampleEntry ecdhesAESPrivateKeyTypeURL [10]]
      { TypeUrl := "type.googleapis.com/google.crypto.tink.AesGcmKey", Value := [10],
        KeyMaterialType := 2 }
      rfl rfl rfl).2.1 (by decide) rfl

end Tinkcrypto
